import Mathlib

/-!
# Verification of the Vaillant vSMART Home Assistant integration

Shallow embedding of `custom_components/vaillant_vsmart/entity.py` and
`custom_components/vaillant_vsmart/sensor.py`.

Modelling conventions:
* Measurement values are `float` in the source.  The integration performs no
  arithmetic on them (they are only copied, indexed and rendered with `str`),
  so they are modelled as `Int`.
* Python code that can raise (`list[i]` out of range, `dict[k]` on a missing
  key) is modelled with `Option`; the `try`/`except` dispatch of the update
  method is modelled with `Except`.
* Python `dict` comprehensions are modelled by an association list built by
  insertion (`Dict.ofList`): a repeated key keeps its first position and takes
  the last value, exactly as in CPython.
* `asyncio.gather` awaits a list of requests and propagates the first
  exception; it is modelled by `gatherResults`, which issues the whole request
  list and returns either all results or the first error in list order.
-/

set_option autoImplicit false

namespace VaillantVsmart

/-- A measurement item returned by the historical-data endpoint
(`vaillant_netatmo_api.MeasurementItem`): a timestamped list of sample
values.  Only the `value` field is read by the integration. -/
structure MeasurementItem where
  value : List Int
deriving Repr, DecidableEq

/-- A thermostat program (`vaillant_netatmo_api.Program`); the integration
reads only its `id`. -/
structure Program where
  id : String
deriving Repr, DecidableEq

/-- The `measured` record of a module: the four fields the coordinator merges
new samples into. -/
structure Measured where
  temperature : Int
  setpoint_temp : Int
  gas_heating_usage : List Int
  gas_water_usage : List Int
deriving Repr, DecidableEq

/-- A thermostat module (`vaillant_netatmo_api.Module`), restricted to the
fields the integration reads. -/
structure Module where
  id : String
  module_name : String
  firmware : Nat
  battery_percent : Nat
  therm_program_list : List Program
  measured : Measured
deriving Repr, DecidableEq

/-- A gateway device (`vaillant_netatmo_api.Device`), restricted to the fields
the integration reads. -/
structure Device where
  id : String
  type : String
  modules : List Module
deriving Repr, DecidableEq

/-! ## Measurement merge helpers (`VaillantCoordinator._get_measurement_value`,
`_get_energy_measurement_value`) -/

/-- `_get_measurement_value(measurements, default_value)`:
`measure = measurements[-1] if measurements else None;
 return measure.value[-1] if measure and measure.value else default_value`. -/
def getMeasurementValue (measurements : List MeasurementItem)
    (default_value : Int) : Int :=
  match measurements.getLast? with
  | none => default_value
  | some measure =>
    match measure.value.getLast? with
    | none => default_value
    | some v => v

/-- `_get_energy_measurement_value(measurements, default_value)`:
`measure = measurements[-1] if measurements else None;
 return measure.value if measure and measure.value else default_value`. -/
def getEnergyMeasurementValue (measurements : List MeasurementItem)
    (default_value : List Int) : List Int :=
  match measurements.getLast? with
  | none => default_value
  | some measure =>
    match measure.value with
    | [] => default_value
    | _ => measure.value

/-! ## The merge step (`VaillantCoordinator._update_measured_data`) -/

/-- One iteration of the inner loop of `_update_measured_data`: update the
four measured fields of `module` from `measurements[i]`, `measurements[i+1]`,
`energy_usage[i]`, `energy_usage[i+1]`.  A list access out of range raises
`IndexError` in Python, hence the `Option`. -/
def updateModule (measurements energy_usage : List (List MeasurementItem))
    (i : Nat) (module : Module) : Option Module := do
  let mi ← measurements[i]?
  let mi1 ← measurements[i + 1]?
  let ei ← energy_usage[i]?
  let ei1 ← energy_usage[i + 1]?
  pure { module with measured :=
    { temperature := getMeasurementValue mi module.measured.temperature
      setpoint_temp := getMeasurementValue mi1 module.measured.setpoint_temp
      gas_heating_usage :=
        getEnergyMeasurementValue ei module.measured.gas_heating_usage
      gas_water_usage :=
        getEnergyMeasurementValue ei1 module.measured.gas_water_usage } }

/-- The inner loop of `_update_measured_data` over one device's module list;
the running index `i` advances by 2 per module. -/
def updateModulesAux (measurements energy_usage : List (List MeasurementItem)) :
    Nat → List Module → Option (List Module)
  | _, [] => some []
  | i, m :: ms => do
    let m' ← updateModule measurements energy_usage i m
    let ms' ← updateModulesAux measurements energy_usage (i + 2) ms
    pure (m' :: ms')

/-- The outer loop of `_update_measured_data` over the device list; the index
is shared between devices, each device consuming two slots per module. -/
def updateDevicesAux (measurements energy_usage : List (List MeasurementItem)) :
    Nat → List Device → Option (List Device)
  | _, [] => some []
  | i, d :: ds => do
    let ms' ← updateModulesAux measurements energy_usage i d.modules
    let ds' ← updateDevicesAux measurements energy_usage
      (i + 2 * d.modules.length) ds
    pure ({ d with modules := ms' } :: ds')

/-- `_update_measured_data(devices, measurements, energy_usage)`: the in-place
mutation of the device tree is modelled by returning the updated tree. -/
def updateMeasuredData (devices : List Device)
    (measurements energy_usage : List (List MeasurementItem)) :
    Option (List Device) :=
  updateDevicesAux measurements energy_usage 0 devices

/-! ## Python dictionaries

A CPython `dict` built by a comprehension: insertion order, a repeated key
keeps its first position and takes its last value. -/

/-- An insertion-ordered dictionary with string keys. -/
abbrev Dict (α : Type) : Type := List (String × α)

/-- Whether `d` already holds key `k`. -/
def Dict.hasKey {α : Type} (d : Dict α) (k : String) : Bool :=
  d.any (fun p => p.1 = k)

/-- CPython `d[k] = v`: overwrite in place if the key exists, else append. -/
def Dict.insert {α : Type} (d : Dict α) (k : String) (v : α) : Dict α :=
  if d.hasKey k then
    d.map (fun p => if p.1 = k then (k, v) else p)
  else
    d ++ [(k, v)]

/-- A dict comprehension: insert each pair in order into an empty dict. -/
def Dict.ofList {α : Type} (l : List (String × α)) : Dict α :=
  l.foldl (fun d p => Dict.insert d p.1 p.2) []

/-- `d[k]`: raises `KeyError` when the key is missing, hence `Option`. -/
def Dict.get? {α : Type} : Dict α → String → Option α
  | [], _ => none
  | p :: ps, k => if p.1 = k then some p.2 else Dict.get? ps k

/-- `d.values()` in insertion order. -/
def Dict.values {α : Type} (d : Dict α) : List α :=
  d.map (fun p => p.2)

/-! ## API client and requests -/

/-- `vaillant_netatmo_api.MeasurementType`, restricted to the four members the
integration requests. -/
inductive MeasurementType where
  | temperature
  | setpoint_temperature
  | sum_energy_gas_heating
  | sum_energy_gas_water
deriving Repr, DecidableEq

/-- `vaillant_netatmo_api.MeasurementScale`, restricted to the two members the
integration requests. -/
inductive MeasurementScale where
  | max
  | day
deriving Repr, DecidableEq

/-- The arguments of one `async_get_measure` call (the `start_time` argument
does not influence which call is made per module, so it is omitted). -/
structure MeasureRequest where
  device_id : String
  module_id : String
  type : MeasurementType
  scale : MeasurementScale
deriving Repr, DecidableEq

/-- An exception raised by the client library: either
`RequestUnauthorizedException` or any other `ApiException`. -/
inductive ApiError where
  | unauthorized
  | api
deriving Repr, DecidableEq

/-- The deterministic behaviour of the `ThermostatClient` during one poll
cycle: the response of `async_get_thermostats_data` and of each
`async_get_measure` call. -/
structure Client where
  getThermostatsData : Except ApiError (List Device)
  getMeasure : MeasureRequest → Except ApiError (List MeasurementItem)

/-- The request list built by
`_get_temperature_measurements_for_all_devices`: for each device and each of
its modules, a TEMPERATURE/MAX request then a SETPOINT_TEMPERATURE/MAX
request. -/
def temperatureRequests (devices : List Device) : List MeasureRequest :=
  devices.flatMap fun device => device.modules.flatMap fun module =>
    [ { device_id := device.id, module_id := module.id,
        type := MeasurementType.temperature, scale := MeasurementScale.max },
      { device_id := device.id, module_id := module.id,
        type := MeasurementType.setpoint_temperature,
        scale := MeasurementScale.max } ]

/-- The request list built by
`_get_energy_usage_measurements_for_all_devices`: for each device and each of
its modules, a SUM_ENERGY_GAS_HEATING/DAY request then a
SUM_ENERGY_GAS_WATER/DAY request. -/
def energyRequests (devices : List Device) : List MeasureRequest :=
  devices.flatMap fun device => device.modules.flatMap fun module =>
    [ { device_id := device.id, module_id := module.id,
        type := MeasurementType.sum_energy_gas_heating,
        scale := MeasurementScale.day },
      { device_id := device.id, module_id := module.id,
        type := MeasurementType.sum_energy_gas_water,
        scale := MeasurementScale.day } ]

/-- `asyncio.gather` over a list of `async_get_measure` tasks: every request
in the list is issued; the result is the list of responses in request order,
or the first error in list order. -/
def gatherResults (f : MeasureRequest → Except ApiError (List MeasurementItem)) :
    List MeasureRequest → Except ApiError (List (List MeasurementItem))
  | [] => Except.ok []
  | r :: rs =>
    match f r with
    | Except.error e => Except.error e
    | Except.ok v =>
      match gatherResults f rs with
      | Except.error e => Except.error e
      | Except.ok vs => Except.ok (v :: vs)

/-! ## Coordinator data (`VaillantData.__init__`) -/

/-- `VaillantData`: the lookup tables the coordinator hands to entities. -/
structure VaillantData where
  client : Client
  devices : Dict Device
  modules : Dict Module
  programs : Dict Program

/-- `VaillantData(client, devices)`: the three dict comprehensions of
`VaillantData.__init__`. -/
def VaillantData.ofDevices (client : Client) (devices : List Device) :
    VaillantData :=
  { client := client
    devices := Dict.ofList (devices.map fun device => (device.id, device))
    modules := Dict.ofList (devices.flatMap fun device =>
      device.modules.map fun module => (module.id, module))
    programs := Dict.ofList (devices.flatMap fun device =>
      device.modules.flatMap fun module =>
        module.therm_program_list.map fun program => (program.id, program)) }

/-! ## The update method (`VaillantCoordinator._update_method`) -/

/-- How `_update_method` terminates: a `VaillantData` on success, or one of
the re-raised exceptions.  `indexError` models an `IndexError` escaping the
merge step: it is not an `ApiException`, so neither `except` clause catches
it. -/
inductive PollError where
  | configEntryAuthFailed
  | updateFailed
  | indexError
deriving Repr, DecidableEq

/-- The `except` clauses of `_update_method`:
`RequestUnauthorizedException → ConfigEntryAuthFailed`,
any other `ApiException → UpdateFailed`. -/
def translateApiError : ApiError → PollError
  | ApiError.unauthorized => PollError.configEntryAuthFailed
  | ApiError.api => PollError.updateFailed

/-- `_update_method`: fetch the device tree, gather the temperature then the
energy measurements, merge, and wrap the result; exceptions are translated by
the `except` clauses. -/
def updateMethod (c : Client) : Except PollError VaillantData :=
  match c.getThermostatsData with
  | Except.error e => Except.error (translateApiError e)
  | Except.ok devices =>
    match gatherResults c.getMeasure (temperatureRequests devices) with
    | Except.error e => Except.error (translateApiError e)
    | Except.ok measurements =>
      match gatherResults c.getMeasure (energyRequests devices) with
      | Except.error e => Except.error (translateApiError e)
      | Except.ok energy_usage =>
        match updateMeasuredData devices measurements energy_usage with
        | none => Except.error PollError.indexError
        | some devices' => Except.ok (VaillantData.ofDevices c devices')

/-- The first API exception raised during a poll cycle, in execution order
(thermostats data, then the temperature gather, then the energy gather), if
any. -/
def firstApiError (c : Client) : Option ApiError :=
  match c.getThermostatsData with
  | Except.error e => some e
  | Except.ok devices =>
    match gatherResults c.getMeasure (temperatureRequests devices) with
    | Except.error e => some e
    | Except.ok _ =>
      match gatherResults c.getMeasure (energyRequests devices) with
      | Except.error e => some e
      | Except.ok _ => none

/-- One HTTP call issued by the coordinator. -/
inductive Request where
  | thermostatsData
  | measure (r : MeasureRequest)
deriving Repr, DecidableEq

/-- The HTTP calls issued during one poll cycle, in issue order: the
thermostats-data call always; the temperature measure calls only if it
succeeded; the energy measure calls only if the temperature gather also
succeeded (`asyncio.gather` schedules every task of its list even when one of
them fails). -/
def pollTrace (c : Client) : List Request :=
  Request.thermostatsData ::
    match c.getThermostatsData with
    | Except.error _ => []
    | Except.ok devices =>
      (temperatureRequests devices).map Request.measure ++
        match gatherResults c.getMeasure (temperatureRequests devices) with
        | Except.error _ => []
        | Except.ok _ => (energyRequests devices).map Request.measure

/-! ## Entity facade (`VaillantEntity` and the sensors of `sensor.py`) -/

/-- The `const.DOMAIN` constant of the integration (`const.py` is not part of
the analysed sources; its concrete value is irrelevant to every claim). -/
def DOMAIN : String := "vaillant_vsmart"

/-- The identity an entity stores at construction time
(`VaillantEntity.__init__`). -/
structure VaillantEntity where
  device_id : String
  module_id : String
  program_id : Option String := none
deriving Repr, DecidableEq

/-- `VaillantEntity._client`: the client held by the coordinator data. -/
def VaillantEntity.client (_ : VaillantEntity) (data : VaillantData) : Client :=
  data.client

/-- `VaillantEntity._device`: `self.coordinator.data.devices[self._device_id]`
(`KeyError` on a missing key, hence `Option`). -/
def VaillantEntity.device (e : VaillantEntity) (data : VaillantData) :
    Option Device :=
  Dict.get? data.devices e.device_id

/-- `VaillantEntity._module`:
`self.coordinator.data.modules[self._module_id]`. -/
def VaillantEntity.module (e : VaillantEntity) (data : VaillantData) :
    Option Module :=
  Dict.get? data.modules e.module_id

/-- `VaillantEntity._program`: `None` when no program id is stored, otherwise
`self.coordinator.data.programs[self._program_id]`.  The outer `Option` is
the possible `KeyError`; the inner one is the returned `None`. -/
def VaillantEntity.program (e : VaillantEntity) (data : VaillantData) :
    Option (Option Program) :=
  match e.program_id with
  | none => some none
  | some pid => (Dict.get? data.programs pid).map some

/-- The dictionary returned by `VaillantEntity.device_info`. -/
structure DeviceInfo where
  identifiers : String × String
  name : String
  sw_version : Nat
  manufacturer : String
  via_device : String × String
deriving Repr, DecidableEq

/-- `VaillantEntity.device_info`: built from the entity's module and
device. -/
def VaillantEntity.deviceInfo (e : VaillantEntity) (data : VaillantData) :
    Option DeviceInfo := do
  let module ← e.module data
  let device ← e.device data
  pure { identifiers := (DOMAIN, module.id)
         name := module.module_name
         sw_version := module.firmware
         manufacturer := device.type
         via_device := (DOMAIN, device.id) }

/-- Python `lst[lst.__len__() - 1]` where the subtraction is on `int`: a
negative index counts from the end, and an index still out of range raises
`IndexError`. -/
def pyIndex {α : Type} (l : List α) (i : Int) : Option α :=
  let j : Int := if i < 0 then i + l.length else i
  if 0 ≤ j then l.get? j.toNat else none

/-- `VaillantBatterySensor.unique_id`: the module id. -/
def batteryUniqueId (e : VaillantEntity) (data : VaillantData) :
    Option String :=
  (e.module data).map fun module => module.id

/-- `VaillantBatterySensor.name`: `f"{module_name} Battery"`. -/
def batteryName (e : VaillantEntity) (data : VaillantData) : Option String :=
  (e.module data).map fun module => module.module_name ++ " Battery"

/-- `VaillantBatterySensor.native_value`: `str(self._module.battery_percent)`. -/
def batteryNativeValue (e : VaillantEntity) (data : VaillantData) :
    Option String :=
  (e.module data).map fun module => toString module.battery_percent

/-- `VaillantGasWaterSensor.unique_id`: `f"{module.id}_gas_water"`. -/
def gasWaterUniqueId (e : VaillantEntity) (data : VaillantData) :
    Option String :=
  (e.module data).map fun module => module.id ++ "_gas_water"

/-- `VaillantGasWaterSensor.name`: `f"{module_name} Water Gas usage"`. -/
def gasWaterName (e : VaillantEntity) (data : VaillantData) : Option String :=
  (e.module data).map fun module => module.module_name ++ " Water Gas usage"

/-- `VaillantGasWaterSensor.native_value`:
`str(gas_water_usage[gas_water_usage.__len__() - 1])`. -/
def gasWaterNativeValue (module : Module) : Option String :=
  (pyIndex module.measured.gas_water_usage
    ((module.measured.gas_water_usage.length : Int) - 1)).map toString

/-- `VaillantGasWaterSensor.native_value` as read through the coordinator
data. -/
def gasWaterNativeValueOf (e : VaillantEntity) (data : VaillantData) :
    Option String :=
  (e.module data).bind gasWaterNativeValue

/-- `VaillantGasWaterSensor.extra_state_attributes`: the string form of the
whole stored list under the key `historical_values`. -/
def gasWaterExtraAttributes (e : VaillantEntity) (data : VaillantData) :
    Option (String × String) :=
  (e.module data).map fun module =>
    ("historical_values", toString module.measured.gas_water_usage)

/-- `VaillantGasHeatingSensor.unique_id`: `f"{module.id}_gas_heating"`. -/
def gasHeatingUniqueId (e : VaillantEntity) (data : VaillantData) :
    Option String :=
  (e.module data).map fun module => module.id ++ "_gas_heating"

/-- `VaillantGasHeatingSensor.name`: `f"{module_name} Heating Gas usage"`. -/
def gasHeatingName (e : VaillantEntity) (data : VaillantData) :
    Option String :=
  (e.module data).map fun module => module.module_name ++ " Heating Gas usage"

/-- `VaillantGasHeatingSensor.extra_state_attributes`: the string form of the
whole stored list under the key `historical_values`. -/
def gasHeatingExtraAttributes (e : VaillantEntity) (data : VaillantData) :
    Option (String × String) :=
  (e.module data).map fun module =>
    ("historical_values", toString module.measured.gas_heating_usage)

/-- `VaillantGasHeatingSensor.native_value`:
`str(gas_heating_usage[gas_heating_usage.__len__() - 1])`. -/
def gasHeatingNativeValue (module : Module) : Option String :=
  (pyIndex module.measured.gas_heating_usage
    ((module.measured.gas_heating_usage.length : Int) - 1)).map toString

/-- `VaillantGasHeatingSensor.native_value` as read through the coordinator
data. -/
def gasHeatingNativeValueOf (e : VaillantEntity) (data : VaillantData) :
    Option String :=
  (e.module data).bind gasHeatingNativeValue

/-! ## Sensor platform setup (`sensor.async_setup_entry`) -/

/-- Which of the three sensor classes an entity instantiates. -/
inductive SensorKind where
  | battery
  | gasWater
  | gasHeating
deriving Repr, DecidableEq

/-- One sensor created by `async_setup_entry`: its class and the constructor
arguments `(coordinator, device.id, module.id)`. -/
structure Sensor where
  kind : SensorKind
  device_id : String
  module_id : String
deriving Repr, DecidableEq

/-- `async_setup_entry`: three list comprehensions over
`coordinator.data.devices.values()`, concatenated — batteries, then gas water
sensors, then gas heating sensors. -/
def asyncSetupEntry (data : VaillantData) : List Sensor :=
  (data.devices.values.flatMap fun device => device.modules.map fun module =>
    { kind := SensorKind.battery, device_id := device.id,
      module_id := module.id }) ++
  (data.devices.values.flatMap fun device => device.modules.map fun module =>
    { kind := SensorKind.gasWater, device_id := device.id,
      module_id := module.id }) ++
  (data.devices.values.flatMap fun device => device.modules.map fun module =>
    { kind := SensorKind.gasHeating, device_id := device.id,
      module_id := module.id })

/-! ## Derived views of the device tree used by the statements -/

/-- The modules of the tree, flattened in device order, each paired with its
device's id — the iteration order shared by the fetch loops, the merge loop
and the setup comprehensions. -/
def modulePairs (devices : List Device) : List (String × Module) :=
  devices.flatMap fun device => device.modules.map fun module =>
    (device.id, module)

/-- The modules of the tree, flattened in device order. -/
def flatModules (devices : List Device) : List Module :=
  devices.flatMap fun device => device.modules

/-- The number of modules in the tree. -/
def totalModules (devices : List Device) : Nat :=
  (flatModules devices).length

/-- The flattened list of module ids of the tree. -/
def moduleIds (devices : List Device) : List String :=
  (flatModules devices).map fun module => module.id

/-- The module ids fetched by the cycle (empty when the thermostats-data call
fails). -/
def fetchedModuleIds (c : Client) : List String :=
  match c.getThermostatsData with
  | Except.error _ => []
  | Except.ok devices => moduleIds devices

/-- The flattened list of program ids of the tree. -/
def programIds (devices : List Device) : List String :=
  devices.flatMap fun device => device.modules.flatMap fun module =>
    module.therm_program_list.map fun program => program.id

/-- The TEMPERATURE/MAX request of one `(device id, module)` pair. -/
def tempReqOf (p : String × Module) : MeasureRequest :=
  { device_id := p.1, module_id := p.2.id,
    type := MeasurementType.temperature, scale := MeasurementScale.max }

/-- The SETPOINT_TEMPERATURE/MAX request of one `(device id, module)` pair. -/
def setpReqOf (p : String × Module) : MeasureRequest :=
  { device_id := p.1, module_id := p.2.id,
    type := MeasurementType.setpoint_temperature,
    scale := MeasurementScale.max }

/-- The SUM_ENERGY_GAS_HEATING/DAY request of one `(device id, module)`
pair. -/
def heatReqOf (p : String × Module) : MeasureRequest :=
  { device_id := p.1, module_id := p.2.id,
    type := MeasurementType.sum_energy_gas_heating,
    scale := MeasurementScale.day }

/-- The SUM_ENERGY_GAS_WATER/DAY request of one `(device id, module)` pair. -/
def waterReqOf (p : String × Module) : MeasureRequest :=
  { device_id := p.1, module_id := p.2.id,
    type := MeasurementType.sum_energy_gas_water,
    scale := MeasurementScale.day }

/-- The sensor `async_setup_entry` builds for one `(device id, module)` pair
and one sensor class. -/
def sensorOf (kind : SensorKind) (p : String × Module) : Sensor :=
  { kind := kind, device_id := p.1, module_id := p.2.id }

/-- Total description of one merge iteration when every access is in bounds:
the four measured fields from slots `i`/`i+1` of both gathered lists,
everything else untouched. -/
def mergedModule (measurements energy_usage : List (List MeasurementItem))
    (i : Nat) (module : Module) : Module :=
  { module with measured :=
    { temperature :=
        getMeasurementValue (measurements.getD i []) module.measured.temperature
      setpoint_temp :=
        getMeasurementValue (measurements.getD (i + 1) [])
          module.measured.setpoint_temp
      gas_heating_usage :=
        getEnergyMeasurementValue (energy_usage.getD i [])
          module.measured.gas_heating_usage
      gas_water_usage :=
        getEnergyMeasurementValue (energy_usage.getD (i + 1) [])
          module.measured.gas_water_usage } }

/-- Total description of the inner merge loop. -/
def mergedModules (measurements energy_usage : List (List MeasurementItem)) :
    Nat → List Module → List Module
  | _, [] => []
  | i, m :: ms =>
    mergedModule measurements energy_usage i m ::
      mergedModules measurements energy_usage (i + 2) ms

/-- Total description of the outer merge loop. -/
def mergedDevices (measurements energy_usage : List (List MeasurementItem)) :
    Nat → List Device → List Device
  | _, [] => []
  | i, d :: ds =>
    { d with modules := mergedModules measurements energy_usage i d.modules } ::
      mergedDevices measurements energy_usage (i + 2 * d.modules.length) ds

/-! ## Concrete fixtures used by witnesses and counterexamples -/

/-- A concrete program. -/
def sampleProgram : Program := { id := "p1" }

/-- A concrete measured record. -/
def sampleMeasured : Measured :=
  { temperature := 20, setpoint_temp := 21,
    gas_heating_usage := [100], gas_water_usage := [50] }

/-- A concrete module. -/
def sampleModule : Module :=
  { id := "m1", module_name := "Living room", firmware := 37,
    battery_percent := 80, therm_program_list := [sampleProgram],
    measured := sampleMeasured }

/-- A concrete one-device, one-module tree. -/
def sampleDevice : Device :=
  { id := "d1", type := "vaillant", modules := [sampleModule] }

/-- The concrete device list of the fixtures. -/
def sampleDevices : List Device := [sampleDevice]

/-- A module whose gas usage lists are empty. -/
def emptyGasModule : Module :=
  { sampleModule with measured :=
    { sampleMeasured with gas_heating_usage := [], gas_water_usage := [] } }

/-- Concrete gathered temperature measurements for the one-module tree. -/
def sampleMs : List (List MeasurementItem) :=
  [[{ value := [7] }], [{ value := [8, 9] }]]

/-- Concrete gathered energy measurements for the one-module tree: the last
item of the gas-heating slot carries two samples. -/
def sampleEs : List (List MeasurementItem) :=
  [[{ value := [1, 2] }], [{ value := [3] }]]

/-- A concrete entity pointing at the sample device, module and program. -/
def sampleEntity : VaillantEntity :=
  { device_id := "d1", module_id := "m1", program_id := some "p1" }

/-- A device tree holding only the module with empty gas usage lists. -/
def emptyGasDevice : Device :=
  { id := "d2", type := "vaillant", modules := [emptyGasModule] }

/-- The device list of the empty-gas fixture. -/
def emptyGasDevices : List Device := [emptyGasDevice]

/-- An entity pointing at the empty-gas module. -/
def emptyGasEntity : VaillantEntity :=
  { device_id := "d2", module_id := "m1", program_id := none }

/-- A client whose thermostats-data call fails with an authorization error. -/
def sampleClientErr : Client :=
  { getThermostatsData := Except.error ApiError.unauthorized
    getMeasure := fun _ => Except.ok [] }

/-- A client whose calls all succeed, answering each measure request
according to its measurement type. -/
def sampleClientOk : Client :=
  { getThermostatsData := Except.ok sampleDevices
    getMeasure := fun r =>
      match r.type with
      | MeasurementType.temperature => Except.ok [{ value := [7] }]
      | MeasurementType.setpoint_temperature => Except.ok [{ value := [8, 9] }]
      | MeasurementType.sum_energy_gas_heating => Except.ok [{ value := [1, 2] }]
      | MeasurementType.sum_energy_gas_water => Except.ok [{ value := [3] }] }

/-! ## Dictionary lemmas -/

theorem Dict.hasKey_append {α : Type} (d₁ d₂ : Dict α) (k : String) :
    Dict.hasKey (d₁ ++ d₂) k = (Dict.hasKey d₁ k || Dict.hasKey d₂ k) := by
  simp [Dict.hasKey, List.any_append]

theorem Dict.insert_of_not_hasKey {α : Type} (d : Dict α) (k : String) (v : α)
    (h : Dict.hasKey d k = false) : Dict.insert d k v = d ++ [(k, v)] := by
  simp [Dict.insert, h]

theorem Dict.hasKey_eq_false_iff {α : Type} (d : Dict α) (k : String) :
    Dict.hasKey d k = false ↔ k ∉ d.map Prod.fst := by
  unfold Dict.hasKey
  rw [← Bool.not_eq_true, List.any_eq_true]
  constructor
  · intro h hk
    rcases List.mem_map.mp hk with ⟨p, hp, hpk⟩
    exact h ⟨p, hp, decide_eq_true hpk⟩
  · rintro h ⟨p, hp, hpk⟩
    have hk : p.1 = k := of_decide_eq_true hpk
    exact h (hk ▸ List.mem_map_of_mem Prod.fst hp)

theorem Dict.foldl_insert_of_nodup {α : Type} :
    ∀ (l : List (String × α)) (d : Dict α),
      (l.map Prod.fst).Nodup →
      (∀ p ∈ l, Dict.hasKey d p.1 = false) →
      l.foldl (fun d p => Dict.insert d p.1 p.2) d = d ++ l
  | [], d, _, _ => by simp
  | p :: ps, d, hnd, hk => by
    have hins : Dict.insert d p.1 p.2 = d ++ [(p.1, p.2)] :=
      Dict.insert_of_not_hasKey d p.1 p.2 (hk p (List.mem_cons_self p ps))
    have hnd' : (ps.map Prod.fst).Nodup := (List.nodup_cons.mp (by simpa using hnd)).2
    have hhead : p.1 ∉ ps.map Prod.fst := (List.nodup_cons.mp (by simpa using hnd)).1
    have hk' : ∀ q ∈ ps, Dict.hasKey (d ++ [(p.1, p.2)]) q.1 = false := by
      intro q hq
      rw [Dict.hasKey_append]
      have h1 : Dict.hasKey d q.1 = false := hk q (List.mem_cons_of_mem p hq)
      have h2 : Dict.hasKey [(p.1, p.2)] q.1 = false := by
        rw [Dict.hasKey_eq_false_iff]
        intro hmem
        apply hhead
        have : q.1 = p.1 := by simpa using hmem
        rw [← this]
        exact List.mem_map_of_mem Prod.fst hq
      rw [h1, h2]
      rfl
    calc (p :: ps).foldl (fun d p => Dict.insert d p.1 p.2) d
        = ps.foldl (fun d p => Dict.insert d p.1 p.2) (d ++ [(p.1, p.2)]) := by
          rw [List.foldl_cons, hins]
      _ = (d ++ [(p.1, p.2)]) ++ ps :=
          Dict.foldl_insert_of_nodup ps (d ++ [(p.1, p.2)]) hnd' hk'
      _ = d ++ (p :: ps) := by simp

/-- A dict comprehension over pairwise-distinct keys is the input list
itself. -/
theorem Dict.ofList_eq_self {α : Type} (l : List (String × α))
    (hnd : (l.map Prod.fst).Nodup) : Dict.ofList l = l := by
  have h := Dict.foldl_insert_of_nodup l [] hnd (by intro p _; rfl)
  simpa [Dict.ofList] using h

/-- Lookup in an association list with pairwise-distinct keys finds the
stored value. -/
theorem Dict.get?_of_mem_of_nodup {α : Type} :
    ∀ (l : Dict α) (k : String) (v : α),
      (l.map Prod.fst).Nodup → (k, v) ∈ l → Dict.get? l k = some v
  | [], _, _, _, h => by cases h
  | p :: ps, k, v, hnd, hm => by
    rcases List.mem_cons.mp hm with h | h
    · rw [← h]
      simp [Dict.get?]
    · have hhead : p.1 ∉ ps.map Prod.fst := (List.nodup_cons.mp (by simpa using hnd)).1
      have hne : p.1 ≠ k := by
        intro he
        apply hhead
        rw [he]
        exact List.mem_map_of_mem Prod.fst h
      have hnd' : (ps.map Prod.fst).Nodup := (List.nodup_cons.mp (by simpa using hnd)).2
      simp only [Dict.get?, if_neg hne]
      exact Dict.get?_of_mem_of_nodup ps k v hnd' h

theorem Dict.values_eq {α : Type} (d : Dict α) :
    Dict.values d = d.map Prod.snd := rfl

/-! ## Gather lemmas -/

theorem gatherResults_ok_length
    (f : MeasureRequest → Except ApiError (List MeasurementItem)) :
    ∀ (rs : List MeasureRequest) (vs : List (List MeasurementItem)),
      gatherResults f rs = Except.ok vs → vs.length = rs.length
  | [], vs, h => by
    simp [gatherResults] at h
    simp [← h]
  | r :: rs, vs, h => by
    simp only [gatherResults] at h
    cases hf : f r with
    | error e => rw [hf] at h; cases h
    | ok v =>
      rw [hf] at h
      cases hg : gatherResults f rs with
      | error e => rw [hg] at h; cases h
      | ok ws =>
        rw [hg] at h
        cases h
        simp [gatherResults_ok_length f rs ws hg]

theorem gatherResults_ok_get
    (f : MeasureRequest → Except ApiError (List MeasurementItem)) :
    ∀ (rs : List MeasureRequest) (vs : List (List MeasurementItem)),
      gatherResults f rs = Except.ok vs →
      ∀ (i : Nat) (r : MeasureRequest), rs[i]? = some r →
        ∃ v, vs[i]? = some v ∧ f r = Except.ok v
  | [], _, _, i, r, hr => by simp at hr
  | r₀ :: rs, vs, h, i, r, hr => by
    simp only [gatherResults] at h
    cases hf : f r₀ with
    | error e => rw [hf] at h; cases h
    | ok v =>
      rw [hf] at h
      cases hg : gatherResults f rs with
      | error e => rw [hg] at h; cases h
      | ok ws =>
        rw [hg] at h
        cases h
        cases i with
        | zero =>
          simp at hr
          exact ⟨v, by simp, by rw [← hr]; exact hf⟩
        | succ j =>
          simp at hr
          have := gatherResults_ok_get f rs ws hg j r (by simpa using hr)
          simpa using this

/-! ## Merge-step lemmas -/

theorem updateModule_eq (ms es : List (List MeasurementItem)) (i : Nat)
    (m : Module) (hm : i + 1 < ms.length) (he : i + 1 < es.length) :
    updateModule ms es i m = some (mergedModule ms es i m) := by
  have hm0 : i < ms.length := Nat.lt_of_succ_lt hm
  have he0 : i < es.length := Nat.lt_of_succ_lt he
  simp [updateModule, mergedModule, List.getElem?_eq_getElem hm0,
    List.getElem?_eq_getElem hm, List.getElem?_eq_getElem he0,
    List.getElem?_eq_getElem he, List.getD_eq_getElem ms [] hm0,
    List.getD_eq_getElem ms [] hm, List.getD_eq_getElem es [] he0,
    List.getD_eq_getElem es [] he]

theorem mergedModules_length (ms es : List (List MeasurementItem)) :
    ∀ (i : Nat) (mods : List Module),
      (mergedModules ms es i mods).length = mods.length
  | _, [] => rfl
  | i, _ :: mods => by
    simp [mergedModules, mergedModules_length ms es (i + 2) mods]

theorem updateModulesAux_eq (ms es : List (List MeasurementItem)) :
    ∀ (mods : List Module) (i : Nat),
      i + 2 * mods.length ≤ ms.length → i + 2 * mods.length ≤ es.length →
      updateModulesAux ms es i mods = some (mergedModules ms es i mods)
  | [], i, _, _ => rfl
  | m :: mods, i, hm, he => by
    simp only [List.length_cons] at hm he
    have hm1 : i + 1 < ms.length := by omega
    have he1 : i + 1 < es.length := by omega
    have hmrec : i + 2 + 2 * mods.length ≤ ms.length := by omega
    have herec : i + 2 + 2 * mods.length ≤ es.length := by omega
    simp [updateModulesAux, updateModule_eq ms es i m hm1 he1,
      updateModulesAux_eq ms es mods (i + 2) hmrec herec, mergedModules]

theorem flatModules_cons (d : Device) (ds : List Device) :
    flatModules (d :: ds) = d.modules ++ flatModules ds := by
  simp [flatModules]

theorem updateDevicesAux_eq (ms es : List (List MeasurementItem)) :
    ∀ (devices : List Device) (i : Nat),
      i + 2 * (flatModules devices).length ≤ ms.length →
      i + 2 * (flatModules devices).length ≤ es.length →
      updateDevicesAux ms es i devices = some (mergedDevices ms es i devices)
  | [], i, _, _ => rfl
  | d :: ds, i, hm, he => by
    have hlen : (flatModules (d :: ds)).length
        = d.modules.length + (flatModules ds).length := by
      rw [flatModules_cons, List.length_append]
    have hmmod : i + 2 * d.modules.length ≤ ms.length := by omega
    have hemod : i + 2 * d.modules.length ≤ es.length := by omega
    have hmrec : i + 2 * d.modules.length + 2 * (flatModules ds).length
        ≤ ms.length := by omega
    have herec : i + 2 * d.modules.length + 2 * (flatModules ds).length
        ≤ es.length := by omega
    simp [updateDevicesAux, updateModulesAux_eq ms es d.modules i hmmod hemod,
      updateDevicesAux_eq ms es ds (i + 2 * d.modules.length) hmrec herec,
      mergedDevices]

/-- The merge succeeds whenever both gathered lists hold at least two slots
per module. -/
theorem updateMeasuredData_eq (devices : List Device)
    (ms es : List (List MeasurementItem))
    (hm : 2 * totalModules devices ≤ ms.length)
    (he : 2 * totalModules devices ≤ es.length) :
    updateMeasuredData devices ms es = some (mergedDevices ms es 0 devices) :=
  updateDevicesAux_eq ms es devices 0 (by simpa [totalModules] using hm)
    (by simpa [totalModules] using he)

theorem mergedModules_append (ms es : List (List MeasurementItem))
    (l₁ l₂ : List Module) : ∀ (i : Nat),
      mergedModules ms es i (l₁ ++ l₂)
        = mergedModules ms es i l₁
            ++ mergedModules ms es (i + 2 * l₁.length) l₂ := by
  induction l₁ with
  | nil => intro i; simp [mergedModules]
  | cons m t ih =>
    intro i
    have harith : i + 2 + 2 * t.length = i + 2 * (m :: t).length := by
      simp only [List.length_cons]; ring
    calc mergedModules ms es i ((m :: t) ++ l₂)
        = mergedModule ms es i m :: mergedModules ms es (i + 2) (t ++ l₂) :=
          rfl
      _ = mergedModule ms es i m ::
            (mergedModules ms es (i + 2) t
              ++ mergedModules ms es (i + 2 + 2 * t.length) l₂) := by
          rw [ih (i + 2)]
      _ = (mergedModule ms es i m :: mergedModules ms es (i + 2) t)
            ++ mergedModules ms es (i + 2 * (m :: t).length) l₂ := by
          rw [harith]; rfl
      _ = mergedModules ms es i (m :: t)
            ++ mergedModules ms es (i + 2 * (m :: t).length) l₂ := rfl

theorem flatModules_mergedDevices (ms es : List (List MeasurementItem)) :
    ∀ (devices : List Device) (i : Nat),
      flatModules (mergedDevices ms es i devices)
        = mergedModules ms es i (flatModules devices)
  | [], _ => rfl
  | d :: ds, i => by
    rw [mergedDevices, flatModules_cons, flatModules_cons,
      mergedModules_append ms es d.modules (flatModules ds) i,
      flatModules_mergedDevices ms es ds (i + 2 * d.modules.length)]

theorem mergedModules_getElem? (ms es : List (List MeasurementItem)) :
    ∀ (mods : List Module) (i k : Nat),
      (mergedModules ms es i mods)[k]?
        = (mods[k]?).map (mergedModule ms es (i + 2 * k))
  | [], i, k => by simp [mergedModules]
  | m :: mods, i, k => by
    cases k with
    | zero => simp [mergedModules]
    | succ j =>
      have h := mergedModules_getElem? ms es mods (i + 2) j
      simp only [mergedModules, List.getElem?_cons_succ, h]
      have : i + 2 + 2 * j = i + 2 * (j + 1) := by ring
      rw [this]

/-! ## Frame lemmas about the merge -/

/-- The projection of a device that the merge must not touch. -/
def deviceFrame (d : Device) : String × String × Nat :=
  (d.id, d.type, d.modules.length)

/-- The projection of a module that the merge must not touch. -/
def moduleFrame (m : Module) : String × String × Nat × Nat × List Program :=
  (m.id, m.module_name, m.firmware, m.battery_percent, m.therm_program_list)

theorem mergedModules_map_moduleFrame (ms es : List (List MeasurementItem)) :
    ∀ (i : Nat) (mods : List Module),
      (mergedModules ms es i mods).map moduleFrame = mods.map moduleFrame
  | _, [] => rfl
  | i, m :: mods => by
    simp only [mergedModules, List.map_cons,
      mergedModules_map_moduleFrame ms es (i + 2) mods]
    rfl

theorem mergedDevices_map_deviceFrame (ms es : List (List MeasurementItem)) :
    ∀ (i : Nat) (devices : List Device),
      (mergedDevices ms es i devices).map deviceFrame
        = devices.map deviceFrame
  | _, [] => rfl
  | i, d :: ds => by
    simp only [mergedDevices, List.map_cons,
      mergedDevices_map_deviceFrame ms es (i + 2 * d.modules.length) ds]
    simp [deviceFrame, mergedModules_length]

/-! ## Request-list lemmas -/

theorem flatMapPair_length {α β : Type} (f g : α → β) :
    ∀ (l : List α), (l.flatMap fun a => [f a, g a]).length = 2 * l.length := by
  intro l
  induction l with
  | nil => rfl
  | cons a t ih =>
    simp only [List.flatMap_cons, List.length_append, ih, List.length_cons]
    simp
    omega

theorem flatMapPair_getElem_even {α β : Type} (f g : α → β) :
    ∀ (l : List α) (k : Nat),
      (l.flatMap fun a => [f a, g a])[2 * k]? = (l[k]?).map f := by
  intro l
  induction l with
  | nil => intro k; simp
  | cons a t ih =>
    intro k
    cases k with
    | zero => simp
    | succ j =>
      have harith : 2 * (j + 1) = 2 * j + 1 + 1 := by ring
      simp only [List.flatMap_cons, List.cons_append, harith,
        List.getElem?_cons_succ, List.nil_append, ih j]

theorem flatMapPair_getElem_odd {α β : Type} (f g : α → β) :
    ∀ (l : List α) (k : Nat),
      (l.flatMap fun a => [f a, g a])[2 * k + 1]? = (l[k]?).map g := by
  intro l
  induction l with
  | nil => intro k; simp
  | cons a t ih =>
    intro k
    cases k with
    | zero => simp
    | succ j =>
      have harith : 2 * (j + 1) + 1 = 2 * j + 1 + 1 + 1 := by ring
      simp only [List.flatMap_cons, List.cons_append, harith,
        List.getElem?_cons_succ, List.nil_append, ih j]

theorem flatMapPair_mem {α β : Type} (f g : α → β) (l : List α) (x : β) :
    x ∈ l.flatMap (fun a => [f a, g a]) ↔ ∃ a ∈ l, x = f a ∨ x = g a := by
  rw [List.mem_flatMap]
  constructor
  · rintro ⟨a, ha, hx⟩
    rcases List.mem_cons.mp hx with h | h
    · exact ⟨a, ha, Or.inl h⟩
    · exact ⟨a, ha, Or.inr (by simpa using h)⟩
  · rintro ⟨a, ha, h | h⟩
    · exact ⟨a, ha, by simp [h]⟩
    · exact ⟨a, ha, by simp [h]⟩

theorem flatMapPair_nodup {α β : Type} (f g : α → β) (key : β → String)
    (h : α → String) (hf : ∀ a, key (f a) = h a) (hg : ∀ a, key (g a) = h a)
    (hfg : ∀ a, f a ≠ g a) :
    ∀ (l : List α), (l.map h).Nodup → (l.flatMap fun a => [f a, g a]).Nodup := by
  intro l
  induction l with
  | nil => intro _; simp
  | cons a t ih =>
    intro hnd
    have hhead : h a ∉ t.map h := (List.nodup_cons.mp (by simpa using hnd)).1
    have htail : (t.map h).Nodup := (List.nodup_cons.mp (by simpa using hnd)).2
    have hmem : ∀ x, x ∈ t.flatMap (fun b => [f b, g b]) → key x ∈ t.map h := by
      intro x hx
      rcases (flatMapPair_mem f g t x).mp hx with ⟨b, hb, hxb | hxb⟩
      · rw [hxb, hf b]; exact List.mem_map_of_mem h hb
      · rw [hxb, hg b]; exact List.mem_map_of_mem h hb
    simp only [List.flatMap_cons, List.cons_append, List.nil_append]
    rw [List.nodup_cons, List.nodup_cons]
    refine ⟨?_, ?_, ih htail⟩
    · intro hmemf
      rcases List.mem_cons.mp hmemf with hx | hx
      · exact hfg a hx
      · exact hhead (hf a ▸ hmem (f a) hx)
    · intro hmemg
      exact hhead (hg a ▸ hmem (g a) hmemg)

theorem temperatureRequests_eq (devices : List Device) :
    temperatureRequests devices
      = (modulePairs devices).flatMap fun p => [tempReqOf p, setpReqOf p] := by
  simp [temperatureRequests, modulePairs, tempReqOf, setpReqOf,
    List.flatMap_assoc, List.flatMap_map]

theorem energyRequests_eq (devices : List Device) :
    energyRequests devices
      = (modulePairs devices).flatMap fun p => [heatReqOf p, waterReqOf p] := by
  simp [energyRequests, modulePairs, heatReqOf, waterReqOf,
    List.flatMap_assoc, List.flatMap_map]

theorem moduleIds_eq (devices : List Device) :
    moduleIds devices = (modulePairs devices).map fun p => p.2.id := by
  simp [moduleIds, flatModules, modulePairs, List.map_flatMap, List.map_map]
  rfl

theorem modulePairs_length (devices : List Device) :
    (modulePairs devices).length = totalModules devices := by
  simp only [modulePairs, totalModules, flatModules, List.length_flatMap]
  congr 1
  apply List.map_congr_left
  intro d _
  simp

theorem temperatureRequests_length (devices : List Device) :
    (temperatureRequests devices).length = 2 * totalModules devices := by
  rw [temperatureRequests_eq, flatMapPair_length, modulePairs_length]

theorem energyRequests_length (devices : List Device) :
    (energyRequests devices).length = 2 * totalModules devices := by
  rw [energyRequests_eq, flatMapPair_length, modulePairs_length]

theorem mem_temperatureRequests_type (devices : List Device)
    (r : MeasureRequest) (h : r ∈ temperatureRequests devices) :
    r.type = MeasurementType.temperature
      ∨ r.type = MeasurementType.setpoint_temperature := by
  rw [temperatureRequests_eq] at h
  rcases (flatMapPair_mem _ _ _ _).mp h with ⟨p, _, hx | hx⟩
  · exact Or.inl (by rw [hx]; rfl)
  · exact Or.inr (by rw [hx]; rfl)

theorem mem_energyRequests_type (devices : List Device)
    (r : MeasureRequest) (h : r ∈ energyRequests devices) :
    r.type = MeasurementType.sum_energy_gas_heating
      ∨ r.type = MeasurementType.sum_energy_gas_water := by
  rw [energyRequests_eq] at h
  rcases (flatMapPair_mem _ _ _ _).mp h with ⟨p, _, hx | hx⟩
  · exact Or.inl (by rw [hx]; rfl)
  · exact Or.inr (by rw [hx]; rfl)

theorem temperatureRequests_nodup (devices : List Device)
    (h : (moduleIds devices).Nodup) : (temperatureRequests devices).Nodup := by
  rw [temperatureRequests_eq]
  refine flatMapPair_nodup tempReqOf setpReqOf
    (fun r => r.module_id) (fun p => p.2.id)
    (fun p => rfl) (fun p => rfl) ?_ (modulePairs devices) ?_
  · intro p heq
    have := congrArg MeasureRequest.type heq
    simp [tempReqOf, setpReqOf] at this
  · rw [← moduleIds_eq]; exact h

theorem energyRequests_nodup (devices : List Device)
    (h : (moduleIds devices).Nodup) : (energyRequests devices).Nodup := by
  rw [energyRequests_eq]
  refine flatMapPair_nodup heatReqOf waterReqOf
    (fun r => r.module_id) (fun p => p.2.id)
    (fun p => rfl) (fun p => rfl) ?_ (modulePairs devices) ?_
  · intro p heq
    have := congrArg MeasureRequest.type heq
    simp [heatReqOf, waterReqOf] at this
  · rw [← moduleIds_eq]; exact h

theorem allRequests_nodup (devices : List Device)
    (h : (moduleIds devices).Nodup) :
    (temperatureRequests devices ++ energyRequests devices).Nodup := by
  rw [List.nodup_append]
  refine ⟨temperatureRequests_nodup devices h,
    energyRequests_nodup devices h, ?_⟩
  intro r hrt hre
  rcases mem_temperatureRequests_type devices r hrt with h1 | h1 <;>
    rcases mem_energyRequests_type devices r hre with h2 | h2 <;>
      rw [h1] at h2 <;> cases h2

theorem count_eq_one_of_nodup_mem {α : Type} [DecidableEq α] (l : List α)
    (a : α) (h1 : l.Nodup) (h2 : a ∈ l) : l.count a = 1 :=
  le_antisymm (List.nodup_iff_count_le_one.mp h1 a)
    (List.count_pos_iff.mpr h2)

/-! ## Value-selection lemmas -/

theorem getMeasurementValue_default (l : List MeasurementItem) (d : Int)
    (h : l = [] ∨ ∃ item, l.getLast? = some item ∧ item.value = []) :
    getMeasurementValue l d = d := by
  rcases h with h | ⟨item, hl, hv⟩
  · rw [h]; rfl
  · simp [getMeasurementValue, hl, hv]

theorem getMeasurementValue_latest (l : List MeasurementItem) (d : Int)
    (item : MeasurementItem) (v : Int) (hl : l.getLast? = some item)
    (hv : item.value.getLast? = some v) : getMeasurementValue l d = v := by
  simp [getMeasurementValue, hl, hv]

theorem getEnergyMeasurementValue_default (l : List MeasurementItem)
    (d : List Int)
    (h : l = [] ∨ ∃ item, l.getLast? = some item ∧ item.value = []) :
    getEnergyMeasurementValue l d = d := by
  rcases h with h | ⟨item, hl, hv⟩
  · rw [h]; rfl
  · simp [getEnergyMeasurementValue, hl, hv]

theorem getEnergyMeasurementValue_latest (l : List MeasurementItem)
    (d : List Int) (item : MeasurementItem) (hl : l.getLast? = some item)
    (hv : item.value ≠ []) : getEnergyMeasurementValue l d = item.value := by
  cases hc : item.value with
  | nil => exact absurd hc hv
  | cons a t => simp [getEnergyMeasurementValue, hl, hc]

/-- `lst[lst.__len__() - 1]` selects the last element of a non-empty list and
raises on an empty one. -/
theorem pyIndex_last {α : Type} (l : List α) :
    pyIndex l ((l.length : Int) - 1) = l.getLast? := by
  cases l with
  | nil => rfl
  | cons a t =>
    unfold pyIndex
    have h1 : ¬ (((a :: t).length : Int) - 1 < 0) := by
      simp only [List.length_cons]
      push_cast
      omega
    rw [if_neg h1]
    have h2 : (0 : Int) ≤ ((a :: t).length : Int) - 1 := by
      simp only [List.length_cons]
      push_cast
      omega
    rw [if_pos h2]
    have h3 : (((a :: t).length : Int) - 1).toNat = (a :: t).length - 1 := by
      omega
    rw [h3, List.get?_eq_getElem?, ← List.getLast?_eq_getElem?]

theorem gasWaterNativeValue_eq_getLast (m : Module) :
    gasWaterNativeValue m
      = (m.measured.gas_water_usage.getLast?).map toString := by
  unfold gasWaterNativeValue
  rw [pyIndex_last]

theorem gasHeatingNativeValue_eq_getLast (m : Module) :
    gasHeatingNativeValue m
      = (m.measured.gas_heating_usage.getLast?).map toString := by
  unfold gasHeatingNativeValue
  rw [pyIndex_last]

/-! ## Claims -/

/-- C9: for every module whose measured gas usage list is non-empty, the gas
water and gas heating sensors' `native_value` is the string form of the last
element of that list; when the list is empty the access indexes position `-1`
of an empty list and fails (modelled as `none`): the sensors index the last
element with no emptiness guard. -/
theorem c9_gas_sensors_index_last (m : Module) :
    (∀ v, m.measured.gas_water_usage.getLast? = some v →
      gasWaterNativeValue m = some (toString v)) ∧
    (m.measured.gas_water_usage = [] → gasWaterNativeValue m = none) ∧
    (∀ v, m.measured.gas_heating_usage.getLast? = some v →
      gasHeatingNativeValue m = some (toString v)) ∧
    (m.measured.gas_heating_usage = [] → gasHeatingNativeValue m = none) := by
  unfold gasWaterNativeValue gasHeatingNativeValue
  rw [pyIndex_last, pyIndex_last]
  refine ⟨?_, ?_, ?_, ?_⟩
  · intro v h; rw [h]; rfl
  · intro h; rw [h]; rfl
  · intro v h; rw [h]; rfl
  · intro h; rw [h]; rfl

/-- Witness for C9 at a module with one stored sample and at a module with an
empty gas usage list. -/
theorem c9_witness :
    gasWaterNativeValue sampleModule = some (toString (50 : Int)) ∧
    gasWaterNativeValue emptyGasModule = none ∧
    gasHeatingNativeValue sampleModule = some (toString (100 : Int)) ∧
    gasHeatingNativeValue emptyGasModule = none :=
  ⟨(c9_gas_sensors_index_last sampleModule).1 50 (by decide),
    (c9_gas_sensors_index_last emptyGasModule).2.1 rfl,
    (c9_gas_sensors_index_last sampleModule).2.2.1 100 (by decide),
    (c9_gas_sensors_index_last emptyGasModule).2.2.2 rfl⟩

theorem deviceKeys_eq (devices : List Device) :
    (devices.map fun d => (d.id, d)).map Prod.fst = devices.map Device.id := by
  rw [List.map_map]
  rfl

theorem moduleKeys_eq (devices : List Device) :
    ((devices.flatMap fun d => d.modules.map fun m => (m.id, m)).map Prod.fst)
      = moduleIds devices := by
  simp only [moduleIds, flatModules, List.map_flatMap, List.map_map]
  rfl

theorem programKeys_eq (devices : List Device) :
    ((devices.flatMap fun d => d.modules.flatMap fun m =>
        m.therm_program_list.map fun p => (p.id, p)).map Prod.fst)
      = programIds devices := by
  simp only [programIds, List.map_flatMap, List.map_map]
  rfl

/-- C8: with pairwise-distinct ids, the three lookup tables of `VaillantData`
hold exactly the tree contents keyed by id — each comprehension, inserted
into a dict, is the association list of the tree itself, nothing more and
nothing less. -/
theorem c8_lookup_tables_exact (c : Client) (devices : List Device)
    (hd : (devices.map Device.id).Nodup)
    (hm : (moduleIds devices).Nodup)
    (hp : (programIds devices).Nodup) :
    (VaillantData.ofDevices c devices).devices
        = devices.map (fun d => (d.id, d)) ∧
    (VaillantData.ofDevices c devices).modules
        = devices.flatMap (fun d => d.modules.map fun m => (m.id, m)) ∧
    (VaillantData.ofDevices c devices).programs
        = devices.flatMap (fun d => d.modules.flatMap fun m =>
            m.therm_program_list.map fun p => (p.id, p)) := by
  unfold VaillantData.ofDevices
  refine ⟨Dict.ofList_eq_self _ ?_, Dict.ofList_eq_self _ ?_,
    Dict.ofList_eq_self _ ?_⟩
  · rw [deviceKeys_eq]; exact hd
  · rw [moduleKeys_eq]; exact hm
  · rw [programKeys_eq]; exact hp

/-- Witness for C8 on the concrete one-device tree. -/
theorem c8_witness :
    (VaillantData.ofDevices sampleClientOk sampleDevices).devices
        = sampleDevices.map (fun d => (d.id, d)) ∧
    (VaillantData.ofDevices sampleClientOk sampleDevices).modules
        = sampleDevices.flatMap (fun d => d.modules.map fun m => (m.id, m)) ∧
    (VaillantData.ofDevices sampleClientOk sampleDevices).programs
        = sampleDevices.flatMap (fun d => d.modules.flatMap fun m =>
            m.therm_program_list.map fun p => (p.id, p)) :=
  c8_lookup_tables_exact sampleClientOk sampleDevices (by decide) (by decide)
    (by decide)

/-- C4: the merge step changes only the four measured fields: the id, type
and module count of every device and the id, name, firmware, battery
percentage and program list of every module are unchanged. -/
theorem c4_merge_frame (devices : List Device)
    (ms es : List (List MeasurementItem))
    (hm : 2 * totalModules devices ≤ ms.length)
    (he : 2 * totalModules devices ≤ es.length) :
    ∀ devices', updateMeasuredData devices ms es = some devices' →
      devices'.map deviceFrame = devices.map deviceFrame ∧
      (flatModules devices').map moduleFrame
        = (flatModules devices).map moduleFrame := by
  intro devices' h
  rw [updateMeasuredData_eq devices ms es hm he] at h
  cases h
  constructor
  · exact mergedDevices_map_deviceFrame ms es 0 devices
  · rw [flatModules_mergedDevices]
    exact mergedModules_map_moduleFrame ms es 0 (flatModules devices)

/-- Witness for C4 on the concrete one-module tree and gathered lists. -/
theorem c4_witness :
    ∃ devices', updateMeasuredData sampleDevices sampleMs sampleEs
        = some devices' ∧
      devices'.map deviceFrame = sampleDevices.map deviceFrame ∧
      (flatModules devices').map moduleFrame
        = (flatModules sampleDevices).map moduleFrame :=
  ⟨mergedDevices sampleMs sampleEs 0 sampleDevices, by decide,
    c4_merge_frame sampleDevices sampleMs sampleEs (by decide) (by decide)
      (mergedDevices sampleMs sampleEs 0 sampleDevices) (by decide)⟩

/-- C1: each poll cycle overwrites every measured field of every module with
the data of the latest fetched measurement item (the last sample value of the
last item for the temperature endpoints, the value list of the last item for
the energy endpoints), and leaves the field equal to its previous value when
no new sample was returned — the fetched list is empty or the last item's
value list is empty. -/
theorem c1_overwrite_or_keep (devices : List Device)
    (ms es : List (List MeasurementItem))
    (hm : 2 * totalModules devices ≤ ms.length)
    (he : 2 * totalModules devices ≤ es.length) :
    (updateMeasuredData devices ms es).isSome = true ∧
    ∀ devices', updateMeasuredData devices ms es = some devices' →
      ∀ k m m', (flatModules devices)[k]? = some m →
        (flatModules devices')[k]? = some m' →
        ((ms.getD (2 * k) [] = [] ∨
            ∃ item, (ms.getD (2 * k) []).getLast? = some item ∧
              item.value = []) →
          m'.measured.temperature = m.measured.temperature) ∧
        (∀ item v, (ms.getD (2 * k) []).getLast? = some item →
          item.value.getLast? = some v → m'.measured.temperature = v) ∧
        ((ms.getD (2 * k + 1) [] = [] ∨
            ∃ item, (ms.getD (2 * k + 1) []).getLast? = some item ∧
              item.value = []) →
          m'.measured.setpoint_temp = m.measured.setpoint_temp) ∧
        (∀ item v, (ms.getD (2 * k + 1) []).getLast? = some item →
          item.value.getLast? = some v → m'.measured.setpoint_temp = v) ∧
        ((es.getD (2 * k) [] = [] ∨
            ∃ item, (es.getD (2 * k) []).getLast? = some item ∧
              item.value = []) →
          m'.measured.gas_heating_usage = m.measured.gas_heating_usage) ∧
        (∀ item, (es.getD (2 * k) []).getLast? = some item →
          item.value ≠ [] → m'.measured.gas_heating_usage = item.value) ∧
        ((es.getD (2 * k + 1) [] = [] ∨
            ∃ item, (es.getD (2 * k + 1) []).getLast? = some item ∧
              item.value = []) →
          m'.measured.gas_water_usage = m.measured.gas_water_usage) ∧
        (∀ item, (es.getD (2 * k + 1) []).getLast? = some item →
          item.value ≠ [] → m'.measured.gas_water_usage = item.value) := by
  constructor
  · rw [updateMeasuredData_eq devices ms es hm he]; rfl
  · intro devices' hupd k m m' hmk hmk'
    rw [updateMeasuredData_eq devices ms es hm he] at hupd
    cases hupd
    rw [flatModules_mergedDevices, mergedModules_getElem? ms es _ 0 k,
      Nat.zero_add, hmk] at hmk'
    have hmm : m' = mergedModule ms es (2 * k) m := by
      simpa using hmk'.symm
    subst hmm
    refine ⟨?_, ?_, ?_, ?_, ?_, ?_, ?_, ?_⟩
    · intro h; exact getMeasurementValue_default _ _ h
    · intro item v hi hv; exact getMeasurementValue_latest _ _ item v hi hv
    · intro h; exact getMeasurementValue_default _ _ h
    · intro item v hi hv; exact getMeasurementValue_latest _ _ item v hi hv
    · intro h; exact getEnergyMeasurementValue_default _ _ h
    · intro item hi hv; exact getEnergyMeasurementValue_latest _ _ item hi hv
    · intro h; exact getEnergyMeasurementValue_default _ _ h
    · intro item hi hv; exact getEnergyMeasurementValue_latest _ _ item hi hv

/-- Witness for C1 on the concrete one-module tree: the merge succeeds and
the field equations hold there. -/
theorem c1_witness :
    (updateMeasuredData sampleDevices sampleMs sampleEs).isSome = true ∧
    ∀ devices', updateMeasuredData sampleDevices sampleMs sampleEs
        = some devices' →
      ∀ k m m', (flatModules sampleDevices)[k]? = some m →
        (flatModules devices')[k]? = some m' →
        ((sampleMs.getD (2 * k) [] = [] ∨
            ∃ item, (sampleMs.getD (2 * k) []).getLast? = some item ∧
              item.value = []) →
          m'.measured.temperature = m.measured.temperature) ∧
        (∀ item v, (sampleMs.getD (2 * k) []).getLast? = some item →
          item.value.getLast? = some v → m'.measured.temperature = v) ∧
        ((sampleMs.getD (2 * k + 1) [] = [] ∨
            ∃ item, (sampleMs.getD (2 * k + 1) []).getLast? = some item ∧
              item.value = []) →
          m'.measured.setpoint_temp = m.measured.setpoint_temp) ∧
        (∀ item v, (sampleMs.getD (2 * k + 1) []).getLast? = some item →
          item.value.getLast? = some v → m'.measured.setpoint_temp = v) ∧
        ((sampleEs.getD (2 * k) [] = [] ∨
            ∃ item, (sampleEs.getD (2 * k) []).getLast? = some item ∧
              item.value = []) →
          m'.measured.gas_heating_usage = m.measured.gas_heating_usage) ∧
        (∀ item, (sampleEs.getD (2 * k) []).getLast? = some item →
          item.value ≠ [] → m'.measured.gas_heating_usage = item.value) ∧
        ((sampleEs.getD (2 * k + 1) [] = [] ∨
            ∃ item, (sampleEs.getD (2 * k + 1) []).getLast? = some item ∧
              item.value = []) →
          m'.measured.gas_water_usage = m.measured.gas_water_usage) ∧
        (∀ item, (sampleEs.getD (2 * k + 1) []).getLast? = some item →
          item.value ≠ [] → m'.measured.gas_water_usage = item.value) :=
  c1_overwrite_or_keep sampleDevices sampleMs sampleEs (by decide) (by decide)

/-- C2 counterexample: with the last gas-heating measurement item carrying
the value list `[1, 2]`, the merge writes the entire list `[1, 2]` into
`gas_heating_usage`, not the single latest sample value `2`. -/
theorem c2_counterexample :
    (updateMeasuredData sampleDevices sampleMs sampleEs).map
        (fun ds => (flatModules ds).map fun m => m.measured.gas_heating_usage)
      = some [[1, 2]] ∧
    ((sampleEs.getD 0 []).getLast?.bind fun item => item.value.getLast?)
      = some 2 ∧
    (updateMeasuredData sampleDevices sampleMs sampleEs).map
        (fun ds => (flatModules ds).map fun m => m.measured.gas_heating_usage)
      ≠ some [[2]] := by
  refine ⟨by decide, by decide, by decide⟩

/-- C2 amended: for every module, the merge folds exactly the most recent
historical data into the device model — temperature and setpoint temperature
receive the single latest sample value of the latest measurement item, while
gas heating usage and gas water usage receive the entire value list of the
latest measurement item returned for that field. -/
theorem c2_merge_most_recent (devices : List Device)
    (ms es : List (List MeasurementItem))
    (hm : 2 * totalModules devices ≤ ms.length)
    (he : 2 * totalModules devices ≤ es.length) :
    ∀ devices', updateMeasuredData devices ms es = some devices' →
      ∀ k m m', (flatModules devices)[k]? = some m →
        (flatModules devices')[k]? = some m' →
        (∀ item v, (ms.getD (2 * k) []).getLast? = some item →
          item.value.getLast? = some v → m'.measured.temperature = v) ∧
        (∀ item v, (ms.getD (2 * k + 1) []).getLast? = some item →
          item.value.getLast? = some v → m'.measured.setpoint_temp = v) ∧
        (∀ item, (es.getD (2 * k) []).getLast? = some item →
          item.value ≠ [] → m'.measured.gas_heating_usage = item.value) ∧
        (∀ item, (es.getD (2 * k + 1) []).getLast? = some item →
          item.value ≠ [] → m'.measured.gas_water_usage = item.value) := by
  intro devices' hupd k m m' hmk hmk'
  rw [updateMeasuredData_eq devices ms es hm he] at hupd
  cases hupd
  rw [flatModules_mergedDevices, mergedModules_getElem? ms es _ 0 k,
    Nat.zero_add, hmk] at hmk'
  have hmm : m' = mergedModule ms es (2 * k) m := by
    simpa using hmk'.symm
  subst hmm
  refine ⟨?_, ?_, ?_, ?_⟩
  · intro item v hi hv; exact getMeasurementValue_latest _ _ item v hi hv
  · intro item v hi hv; exact getMeasurementValue_latest _ _ item v hi hv
  · intro item hi hv; exact getEnergyMeasurementValue_latest _ _ item hi hv
  · intro item hi hv; exact getEnergyMeasurementValue_latest _ _ item hi hv

/-- Witness for the amended C2 on the concrete one-module tree: the merged
module carries the latest temperature samples and the latest entire energy
value lists. -/
theorem c2_witness :
    ∃ devices', updateMeasuredData sampleDevices sampleMs sampleEs
        = some devices' ∧
      ∃ m', (flatModules devices')[0]? = some m' ∧
        m'.measured.temperature = 7 ∧
        m'.measured.setpoint_temp = 9 ∧
        m'.measured.gas_heating_usage = [1, 2] ∧
        m'.measured.gas_water_usage = [3] := by
  have h := c2_merge_most_recent sampleDevices sampleMs sampleEs (by decide)
    (by decide) (mergedDevices sampleMs sampleEs 0 sampleDevices) (by decide)
    0 sampleModule (mergedModule sampleMs sampleEs (2 * 0) sampleModule)
    (by decide) (by decide)
  exact ⟨mergedDevices sampleMs sampleEs 0 sampleDevices, by decide,
    mergedModule sampleMs sampleEs (2 * 0) sampleModule, by decide,
    h.1 { value := [7] } 7 (by decide) (by decide),
    h.2.1 { value := [8, 9] } 9 (by decide) (by decide),
    h.2.2.1 { value := [1, 2] } (by decide) (by decide),
    h.2.2.2 { value := [3] } (by decide) (by decide)⟩

/-! ## Trace lemmas -/

theorem thermostatsData_not_mem_map (rs : List MeasureRequest) :
    Request.thermostatsData ∉ rs.map Request.measure := by
  intro h
  rcases List.mem_map.mp h with ⟨r, _, hr⟩
  cases hr

theorem measure_injective : Function.Injective Request.measure := by
  intro a b h
  injection h

theorem count_thermo_trace (rs : List MeasureRequest) :
    List.count Request.thermostatsData
      (Request.thermostatsData :: rs.map Request.measure) = 1 := by
  rw [List.count_cons_self,
    List.count_eq_zero.mpr (thermostatsData_not_mem_map rs)]

theorem nodup_thermo_trace (rs : List MeasureRequest) (h : rs.Nodup) :
    (Request.thermostatsData :: rs.map Request.measure).Nodup := by
  rw [List.nodup_cons]
  exact ⟨thermostatsData_not_mem_map rs, h.map measure_injective⟩

/-- C3: when any API call of a poll cycle raises, the update method raises —
`ConfigEntryAuthFailed` for an authorization failure, `UpdateFailed` for any
other API exception — produces no data (so the previously exposed coordinator
data stays in place), and issues each HTTP call of the cycle at most once
(no retry): the thermostats-data call exactly once and, when the fetched
module ids are distinct, a duplicate-free call trace. -/
theorem c3_error_propagation (c : Client) (e : ApiError)
    (h : firstApiError c = some e) :
    updateMethod c = Except.error (translateApiError e) ∧
    (∀ data, updateMethod c ≠ Except.ok data) ∧
    List.count Request.thermostatsData (pollTrace c) = 1 ∧
    ((fetchedModuleIds c).Nodup → (pollTrace c).Nodup) := by
  cases hd : c.getThermostatsData with
  | error e' =>
    have he : e' = e := by
      simp only [firstApiError, hd, Option.some.injEq] at h
      exact h
    subst he
    have htrace : pollTrace c
        = Request.thermostatsData
            :: ([] : List MeasureRequest).map Request.measure := by
      simp only [pollTrace, hd, List.map_nil]
    refine ⟨?_, ?_, ?_, ?_⟩
    · simp only [updateMethod, hd]
    · intro data hdata
      simp only [updateMethod, hd] at hdata
      exact Except.noConfusion hdata
    · rw [htrace]; exact count_thermo_trace []
    · intro _; rw [htrace]; exact nodup_thermo_trace [] (by simp)
  | ok devices =>
    have hids : fetchedModuleIds c = moduleIds devices := by
      simp only [fetchedModuleIds, hd]
    cases hg1 : gatherResults c.getMeasure (temperatureRequests devices) with
    | error e' =>
      have he : e' = e := by
        simp only [firstApiError, hd, hg1, Option.some.injEq] at h
        exact h
      subst he
      have htrace : pollTrace c
          = Request.thermostatsData
              :: (temperatureRequests devices).map Request.measure := by
        simp only [pollTrace, hd, hg1, List.append_nil]
      refine ⟨?_, ?_, ?_, ?_⟩
      · simp only [updateMethod, hd, hg1]
      · intro data hdata
        simp only [updateMethod, hd, hg1] at hdata
        exact Except.noConfusion hdata
      · rw [htrace]; exact count_thermo_trace _
      · intro hnd
        rw [htrace]
        exact nodup_thermo_trace _
          (temperatureRequests_nodup devices (hids ▸ hnd))
    | ok ms =>
      cases hg2 : gatherResults c.getMeasure (energyRequests devices) with
      | error e' =>
        have he : e' = e := by
          simp only [firstApiError, hd, hg1, hg2, Option.some.injEq] at h
          exact h
        subst he
        have htrace : pollTrace c
            = Request.thermostatsData
                :: (temperatureRequests devices
                    ++ energyRequests devices).map Request.measure := by
          simp only [pollTrace, hd, hg1, List.map_append]
        refine ⟨?_, ?_, ?_, ?_⟩
        · simp only [updateMethod, hd, hg1, hg2]
        · intro data hdata
          simp only [updateMethod, hd, hg1, hg2] at hdata
          exact Except.noConfusion hdata
        · rw [htrace]; exact count_thermo_trace _
        · intro hnd
          rw [htrace]
          exact nodup_thermo_trace _
            (allRequests_nodup devices (hids ▸ hnd))
      | ok es =>
        exfalso
        simp only [firstApiError, hd, hg1, hg2] at h
        exact Option.noConfusion h

/-- Witness for C3 at a client whose thermostats-data call fails with an
authorization error. -/
theorem c3_witness :
    updateMethod sampleClientErr
        = Except.error (translateApiError ApiError.unauthorized) ∧
    (∀ data, updateMethod sampleClientErr ≠ Except.ok data) ∧
    List.count Request.thermostatsData (pollTrace sampleClientErr) = 1 ∧
    ((fetchedModuleIds sampleClientErr).Nodup →
      (pollTrace sampleClientErr).Nodup) :=
  c3_error_propagation sampleClientErr ApiError.unauthorized rfl

/-- C7: a poll cycle whose fetch and temperature gather succeed issues
exactly one thermostats-data request plus exactly four measurement requests
per module — the two temperature requests and the two energy requests of that
module — for a total of `1 + 4 × (number of modules)` HTTP calls. -/
theorem c7_bounded_fanout (c : Client) (devices : List Device)
    (ms : List (List MeasurementItem))
    (hmod : (moduleIds devices).Nodup)
    (hd : c.getThermostatsData = Except.ok devices)
    (hg : gatherResults c.getMeasure (temperatureRequests devices)
      = Except.ok ms) :
    (pollTrace c).length = 1 + 4 * totalModules devices ∧
    List.count Request.thermostatsData (pollTrace c) = 1 ∧
    ∀ did m, (did, m) ∈ modulePairs devices →
      List.count (Request.measure (tempReqOf (did, m))) (pollTrace c) = 1 ∧
      List.count (Request.measure (setpReqOf (did, m))) (pollTrace c) = 1 ∧
      List.count (Request.measure (heatReqOf (did, m))) (pollTrace c) = 1 ∧
      List.count (Request.measure (waterReqOf (did, m))) (pollTrace c) = 1 := by
  have htrace : pollTrace c
      = Request.thermostatsData
          :: (temperatureRequests devices
              ++ energyRequests devices).map Request.measure := by
    simp only [pollTrace, hd, hg, List.map_append]
  have hcount : ∀ r, r ∈ temperatureRequests devices ++ energyRequests devices →
      List.count (Request.measure r) (pollTrace c) = 1 := by
    intro r hr
    rw [htrace, List.count_cons,
      List.count_map_of_injective _ Request.measure measure_injective r,
      count_eq_one_of_nodup_mem _ r (allRequests_nodup devices hmod) hr]
    simp
  refine ⟨?_, ?_, ?_⟩
  · rw [htrace]
    simp only [List.length_cons, List.length_map, List.length_append,
      temperatureRequests_length, energyRequests_length]
    omega
  · rw [htrace]; exact count_thermo_trace _
  · intro did m hmem
    refine ⟨?_, ?_, ?_, ?_⟩
    · exact hcount _ (List.mem_append_left _ (by
        rw [temperatureRequests_eq]
        exact (flatMapPair_mem _ _ _ _).mpr ⟨(did, m), hmem, Or.inl rfl⟩))
    · exact hcount _ (List.mem_append_left _ (by
        rw [temperatureRequests_eq]
        exact (flatMapPair_mem _ _ _ _).mpr ⟨(did, m), hmem, Or.inr rfl⟩))
    · exact hcount _ (List.mem_append_right _ (by
        rw [energyRequests_eq]
        exact (flatMapPair_mem _ _ _ _).mpr ⟨(did, m), hmem, Or.inl rfl⟩))
    · exact hcount _ (List.mem_append_right _ (by
        rw [energyRequests_eq]
        exact (flatMapPair_mem _ _ _ _).mpr ⟨(did, m), hmem, Or.inr rfl⟩))

/-- Witness for C7 at a client whose calls all succeed on the one-module
tree: `1 + 4 × 1` calls, each made exactly once. -/
theorem c7_witness :
    (pollTrace sampleClientOk).length = 1 + 4 * totalModules sampleDevices ∧
    List.count Request.thermostatsData (pollTrace sampleClientOk) = 1 ∧
    ∀ did m, (did, m) ∈ modulePairs sampleDevices →
      List.count (Request.measure (tempReqOf (did, m)))
        (pollTrace sampleClientOk) = 1 ∧
      List.count (Request.measure (setpReqOf (did, m)))
        (pollTrace sampleClientOk) = 1 ∧
      List.count (Request.measure (heatReqOf (did, m)))
        (pollTrace sampleClientOk) = 1 ∧
      List.count (Request.measure (waterReqOf (did, m)))
        (pollTrace sampleClientOk) = 1 :=
  c7_bounded_fanout sampleClientOk sampleDevices sampleMs (by decide) rfl rfl

theorem flatModules_eq_pairs_map (devices : List Device) :
    flatModules devices = (modulePairs devices).map Prod.snd := by
  simp only [flatModules, modulePairs, List.map_flatMap, List.map_map]
  congr 1
  funext d
  simp [Function.comp]

/-- C10: when the fetch and both gathers succeed, each gathered list holds
exactly two entries per module in the shared device-then-module order, every
index `i`/`i+1` the merge reads is in bounds (the merge succeeds and the
update method returns data, never an uncaught `IndexError`), and the slots
`2k`/`2k+1` merged into the `k`-th module are precisely the responses to that
module's own four requests. -/
theorem c10_alignment (c : Client) (devices : List Device)
    (ms es : List (List MeasurementItem))
    (hd : c.getThermostatsData = Except.ok devices)
    (hgm : gatherResults c.getMeasure (temperatureRequests devices)
      = Except.ok ms)
    (hge : gatherResults c.getMeasure (energyRequests devices)
      = Except.ok es) :
    ms.length = 2 * totalModules devices ∧
    es.length = 2 * totalModules devices ∧
    ∃ devices', updateMeasuredData devices ms es = some devices' ∧
      updateMethod c = Except.ok (VaillantData.ofDevices c devices') ∧
      ∀ k did m, (modulePairs devices)[k]? = some (did, m) →
        (∃ v, ms[2 * k]? = some v ∧
          c.getMeasure (tempReqOf (did, m)) = Except.ok v) ∧
        (∃ v, ms[2 * k + 1]? = some v ∧
          c.getMeasure (setpReqOf (did, m)) = Except.ok v) ∧
        (∃ v, es[2 * k]? = some v ∧
          c.getMeasure (heatReqOf (did, m)) = Except.ok v) ∧
        (∃ v, es[2 * k + 1]? = some v ∧
          c.getMeasure (waterReqOf (did, m)) = Except.ok v) ∧
        (flatModules devices')[k]? = some (mergedModule ms es (2 * k) m) := by
  have hmlen : ms.length = 2 * totalModules devices := by
    rw [gatherResults_ok_length c.getMeasure _ ms hgm,
      temperatureRequests_length]
  have helen : es.length = 2 * totalModules devices := by
    rw [gatherResults_ok_length c.getMeasure _ es hge,
      energyRequests_length]
  have hupd := updateMeasuredData_eq devices ms es (le_of_eq hmlen.symm)
    (le_of_eq helen.symm)
  refine ⟨hmlen, helen, mergedDevices ms es 0 devices, hupd, ?_, ?_⟩
  · simp only [updateMethod, hd, hgm, hge, updateMeasuredData] at hupd ⊢
    rw [hupd]
  · intro k did m hk
    have htk : (temperatureRequests devices)[2 * k]?
        = some (tempReqOf (did, m)) := by
      rw [temperatureRequests_eq, flatMapPair_getElem_even, hk]
      rfl
    have htk1 : (temperatureRequests devices)[2 * k + 1]?
        = some (setpReqOf (did, m)) := by
      rw [temperatureRequests_eq, flatMapPair_getElem_odd, hk]
      rfl
    have hek : (energyRequests devices)[2 * k]?
        = some (heatReqOf (did, m)) := by
      rw [energyRequests_eq, flatMapPair_getElem_even, hk]
      rfl
    have hek1 : (energyRequests devices)[2 * k + 1]?
        = some (waterReqOf (did, m)) := by
      rw [energyRequests_eq, flatMapPair_getElem_odd, hk]
      rfl
    have hflat : (flatModules devices)[k]? = some m := by
      rw [flatModules_eq_pairs_map, List.getElem?_map, hk]
      rfl
    refine ⟨gatherResults_ok_get c.getMeasure _ ms hgm (2 * k) _ htk,
      gatherResults_ok_get c.getMeasure _ ms hgm (2 * k + 1) _ htk1,
      gatherResults_ok_get c.getMeasure _ es hge (2 * k) _ hek,
      gatherResults_ok_get c.getMeasure _ es hge (2 * k + 1) _ hek1, ?_⟩
    rw [flatModules_mergedDevices, mergedModules_getElem? ms es _ 0 k,
      Nat.zero_add, hflat]
    rfl

/-- Witness for C10 at the all-success client on the one-module tree. -/
theorem c10_witness :
    sampleMs.length = 2 * totalModules sampleDevices ∧
    sampleEs.length = 2 * totalModules sampleDevices ∧
    ∃ devices', updateMeasuredData sampleDevices sampleMs sampleEs
        = some devices' ∧
      updateMethod sampleClientOk
        = Except.ok (VaillantData.ofDevices sampleClientOk devices') ∧
      ∀ k did m, (modulePairs sampleDevices)[k]? = some (did, m) →
        (∃ v, sampleMs[2 * k]? = some v ∧
          sampleClientOk.getMeasure (tempReqOf (did, m)) = Except.ok v) ∧
        (∃ v, sampleMs[2 * k + 1]? = some v ∧
          sampleClientOk.getMeasure (setpReqOf (did, m)) = Except.ok v) ∧
        (∃ v, sampleEs[2 * k]? = some v ∧
          sampleClientOk.getMeasure (heatReqOf (did, m)) = Except.ok v) ∧
        (∃ v, sampleEs[2 * k + 1]? = some v ∧
          sampleClientOk.getMeasure (waterReqOf (did, m)) = Except.ok v) ∧
        (flatModules devices')[k]?
          = some (mergedModule sampleMs sampleEs (2 * k) m) :=
  c10_alignment sampleClientOk sampleDevices sampleMs sampleEs rfl rfl rfl

/-! ## Lookup lemmas for the facade -/

theorem ofDevices_devices_get (c : Client) (devices : List Device) (d : Device)
    (hnd : (devices.map Device.id).Nodup) (hmem : d ∈ devices) :
    Dict.get? (VaillantData.ofDevices c devices).devices d.id = some d := by
  show Dict.get? (Dict.ofList (devices.map fun device => (device.id, device)))
    d.id = some d
  rw [Dict.ofList_eq_self _ (by rw [deviceKeys_eq]; exact hnd)]
  exact Dict.get?_of_mem_of_nodup _ _ _ (by rw [deviceKeys_eq]; exact hnd)
    (List.mem_map_of_mem (fun device => (device.id, device)) hmem)

theorem ofDevices_modules_get (c : Client) (devices : List Device)
    (d : Device) (m : Module) (hnd : (moduleIds devices).Nodup)
    (hdm : d ∈ devices) (hm : m ∈ d.modules) :
    Dict.get? (VaillantData.ofDevices c devices).modules m.id = some m := by
  show Dict.get? (Dict.ofList (devices.flatMap fun device =>
    device.modules.map fun module => (module.id, module))) m.id = some m
  rw [Dict.ofList_eq_self _ (by rw [moduleKeys_eq]; exact hnd)]
  exact Dict.get?_of_mem_of_nodup _ _ _ (by rw [moduleKeys_eq]; exact hnd)
    (List.mem_flatMap.mpr ⟨d, hdm,
      List.mem_map_of_mem (fun module => (module.id, module)) hm⟩)

theorem ofDevices_programs_get (c : Client) (devices : List Device)
    (d : Device) (m : Module) (p : Program)
    (hnd : (programIds devices).Nodup) (hdm : d ∈ devices)
    (hm : m ∈ d.modules) (hp : p ∈ m.therm_program_list) :
    Dict.get? (VaillantData.ofDevices c devices).programs p.id = some p := by
  show Dict.get? (Dict.ofList (devices.flatMap fun device =>
    device.modules.flatMap fun module =>
      module.therm_program_list.map fun program => (program.id, program)))
    p.id = some p
  rw [Dict.ofList_eq_self _ (by rw [programKeys_eq]; exact hnd)]
  exact Dict.get?_of_mem_of_nodup _ _ _ (by rw [programKeys_eq]; exact hnd)
    (List.mem_flatMap.mpr ⟨d, hdm, List.mem_flatMap.mpr ⟨m, hm,
      List.mem_map_of_mem (fun program => (program.id, program)) hp⟩⟩)

/-- C5 counterexample: reading the gas sensors' `native_value` on a module
whose gas usage lists are empty raises (returns no value) instead of
returning the corresponding field of the merged model — so not every entity
property read returns the corresponding field as the claim states. -/
theorem c5_counterexample :
    emptyGasEntity.module
        (VaillantData.ofDevices sampleClientOk emptyGasDevices)
      = some emptyGasModule ∧
    emptyGasModule.measured.gas_water_usage = [] ∧
    emptyGasModule.measured.gas_heating_usage = [] ∧
    gasWaterNativeValueOf emptyGasEntity
        (VaillantData.ofDevices sampleClientOk emptyGasDevices) = none ∧
    gasHeatingNativeValueOf emptyGasEntity
        (VaillantData.ofDevices sampleClientOk emptyGasDevices) = none := by
  refine ⟨by decide, rfl, rfl, by decide, by decide⟩

/-- C5 amended: the entity facade is read-only — every property is a pure
function of the coordinator data (no facade operation writes to it) — and
each read returns the corresponding field of the merged model: `_device` the
device stored under the entity's device id, `_module` the module under its
module id, `_program` the stored program (or `None`), `device_info` the
dictionary assembled from the module and device fields, and the three
sensors' `unique_id`, `name`, `native_value` and `extra_state_attributes`
the corresponding module fields — battery `native_value` being the string
form of the battery percentage, while the gas sensors' `native_value`
returns the string form of the last element of the stored gas usage list
when it is non-empty and raises (returns no value) when it is empty. -/
theorem c5_facade_reads (c : Client) (devices : List Device)
    (data : VaillantData) (d : Device) (m : Module) (e : VaillantEntity)
    (hdata : data = VaillantData.ofDevices c devices)
    (hdn : (devices.map Device.id).Nodup)
    (hmn : (moduleIds devices).Nodup)
    (hpn : (programIds devices).Nodup)
    (hdm : d ∈ devices) (hm : m ∈ d.modules)
    (hed : e.device_id = d.id) (hem : e.module_id = m.id) :
    e.client data = c ∧
    e.device data = some d ∧
    e.module data = some m ∧
    (e.program_id = none → e.program data = some none) ∧
    (∀ p, p ∈ m.therm_program_list → e.program_id = some p.id →
      e.program data = some (some p)) ∧
    e.deviceInfo data = some
      { identifiers := (DOMAIN, m.id), name := m.module_name,
        sw_version := m.firmware, manufacturer := d.type,
        via_device := (DOMAIN, d.id) } ∧
    batteryUniqueId e data = some m.id ∧
    batteryName e data = some (m.module_name ++ " Battery") ∧
    batteryNativeValue e data = some (toString m.battery_percent) ∧
    gasWaterUniqueId e data = some (m.id ++ "_gas_water") ∧
    gasWaterName e data = some (m.module_name ++ " Water Gas usage") ∧
    gasHeatingUniqueId e data = some (m.id ++ "_gas_heating") ∧
    gasHeatingName e data = some (m.module_name ++ " Heating Gas usage") ∧
    gasWaterExtraAttributes e data
      = some ("historical_values", toString m.measured.gas_water_usage) ∧
    gasHeatingExtraAttributes e data
      = some ("historical_values", toString m.measured.gas_heating_usage) ∧
    (∀ v, m.measured.gas_water_usage.getLast? = some v →
      gasWaterNativeValueOf e data = some (toString v)) ∧
    (m.measured.gas_water_usage = [] →
      gasWaterNativeValueOf e data = none) ∧
    (∀ v, m.measured.gas_heating_usage.getLast? = some v →
      gasHeatingNativeValueOf e data = some (toString v)) ∧
    (m.measured.gas_heating_usage = [] →
      gasHeatingNativeValueOf e data = none) := by
  subst hdata
  have hdev : e.device (VaillantData.ofDevices c devices) = some d := by
    unfold VaillantEntity.device
    rw [hed]
    exact ofDevices_devices_get c devices d hdn hdm
  have hmod : e.module (VaillantData.ofDevices c devices) = some m := by
    unfold VaillantEntity.module
    rw [hem]
    exact ofDevices_modules_get c devices d m hmn hdm hm
  have hwv : gasWaterNativeValueOf e (VaillantData.ofDevices c devices)
      = gasWaterNativeValue m := by
    unfold gasWaterNativeValueOf
    rw [hmod]
    rfl
  have hhv : gasHeatingNativeValueOf e (VaillantData.ofDevices c devices)
      = gasHeatingNativeValue m := by
    unfold gasHeatingNativeValueOf
    rw [hmod]
    rfl
  refine ⟨rfl, hdev, hmod, ?_, ?_, ?_, ?_, ?_, ?_, ?_, ?_, ?_, ?_, ?_, ?_,
    ?_, ?_, ?_, ?_⟩
  · intro hp
    unfold VaillantEntity.program
    rw [hp]
  · intro p hpmem hpid
    have hred : e.program (VaillantData.ofDevices c devices)
        = Option.map some
            (Dict.get? (VaillantData.ofDevices c devices).programs p.id) := by
      unfold VaillantEntity.program
      rw [hpid]
    rw [hred, ofDevices_programs_get c devices d m p hpn hdm hm hpmem]
    rfl
  · simp only [VaillantEntity.deviceInfo, hmod, hdev]
    rfl
  · rw [batteryUniqueId, hmod]; rfl
  · rw [batteryName, hmod]; rfl
  · rw [batteryNativeValue, hmod]; rfl
  · rw [gasWaterUniqueId, hmod]; rfl
  · rw [gasWaterName, hmod]; rfl
  · rw [gasHeatingUniqueId, hmod]; rfl
  · rw [gasHeatingName, hmod]; rfl
  · rw [gasWaterExtraAttributes, hmod]; rfl
  · rw [gasHeatingExtraAttributes, hmod]; rfl
  · intro v hv
    rw [hwv, gasWaterNativeValue_eq_getLast, hv]
    rfl
  · intro h0
    rw [hwv, gasWaterNativeValue_eq_getLast, h0]
    rfl
  · intro v hv
    rw [hhv, gasHeatingNativeValue_eq_getLast, hv]
    rfl
  · intro h0
    rw [hhv, gasHeatingNativeValue_eq_getLast, h0]
    rfl

/-- Witness for the amended C5 at the concrete entity over the one-module
tree. -/
theorem c5_witness :
    sampleEntity.client (VaillantData.ofDevices sampleClientOk sampleDevices)
        = sampleClientOk ∧
    sampleEntity.device (VaillantData.ofDevices sampleClientOk sampleDevices)
        = some sampleDevice ∧
    sampleEntity.module (VaillantData.ofDevices sampleClientOk sampleDevices)
        = some sampleModule ∧
    (sampleEntity.program_id = none →
      sampleEntity.program
        (VaillantData.ofDevices sampleClientOk sampleDevices) = some none) ∧
    (∀ p, p ∈ sampleModule.therm_program_list →
      sampleEntity.program_id = some p.id →
      sampleEntity.program
        (VaillantData.ofDevices sampleClientOk sampleDevices)
          = some (some p)) ∧
    sampleEntity.deviceInfo
        (VaillantData.ofDevices sampleClientOk sampleDevices) = some
      { identifiers := (DOMAIN, sampleModule.id),
        name := sampleModule.module_name,
        sw_version := sampleModule.firmware,
        manufacturer := sampleDevice.type,
        via_device := (DOMAIN, sampleDevice.id) } ∧
    batteryUniqueId sampleEntity
        (VaillantData.ofDevices sampleClientOk sampleDevices)
      = some sampleModule.id ∧
    batteryName sampleEntity
        (VaillantData.ofDevices sampleClientOk sampleDevices)
      = some (sampleModule.module_name ++ " Battery") ∧
    batteryNativeValue sampleEntity
        (VaillantData.ofDevices sampleClientOk sampleDevices)
      = some (toString sampleModule.battery_percent) ∧
    gasWaterUniqueId sampleEntity
        (VaillantData.ofDevices sampleClientOk sampleDevices)
      = some (sampleModule.id ++ "_gas_water") ∧
    gasWaterName sampleEntity
        (VaillantData.ofDevices sampleClientOk sampleDevices)
      = some (sampleModule.module_name ++ " Water Gas usage") ∧
    gasHeatingUniqueId sampleEntity
        (VaillantData.ofDevices sampleClientOk sampleDevices)
      = some (sampleModule.id ++ "_gas_heating") ∧
    gasHeatingName sampleEntity
        (VaillantData.ofDevices sampleClientOk sampleDevices)
      = some (sampleModule.module_name ++ " Heating Gas usage") ∧
    gasWaterExtraAttributes sampleEntity
        (VaillantData.ofDevices sampleClientOk sampleDevices)
      = some ("historical_values",
          toString sampleModule.measured.gas_water_usage) ∧
    gasHeatingExtraAttributes sampleEntity
        (VaillantData.ofDevices sampleClientOk sampleDevices)
      = some ("historical_values",
          toString sampleModule.measured.gas_heating_usage) ∧
    (∀ v, sampleModule.measured.gas_water_usage.getLast? = some v →
      gasWaterNativeValueOf sampleEntity
        (VaillantData.ofDevices sampleClientOk sampleDevices)
          = some (toString v)) ∧
    (sampleModule.measured.gas_water_usage = [] →
      gasWaterNativeValueOf sampleEntity
        (VaillantData.ofDevices sampleClientOk sampleDevices) = none) ∧
    (∀ v, sampleModule.measured.gas_heating_usage.getLast? = some v →
      gasHeatingNativeValueOf sampleEntity
        (VaillantData.ofDevices sampleClientOk sampleDevices)
          = some (toString v)) ∧
    (sampleModule.measured.gas_heating_usage = [] →
      gasHeatingNativeValueOf sampleEntity
        (VaillantData.ofDevices sampleClientOk sampleDevices) = none) :=
  c5_facade_reads sampleClientOk sampleDevices
    (VaillantData.ofDevices sampleClientOk sampleDevices) sampleDevice
    sampleModule sampleEntity rfl (by decide) (by decide) (by decide)
    (by decide) (by decide) rfl rfl

/-! ## Setup lemmas -/

theorem ofDevices_values (c : Client) (devices : List Device)
    (hnd : (devices.map Device.id).Nodup) :
    Dict.values (VaillantData.ofDevices c devices).devices = devices := by
  show Dict.values
    (Dict.ofList (devices.map fun device => (device.id, device))) = devices
  rw [Dict.ofList_eq_self _ (by rw [deviceKeys_eq]; exact hnd),
    Dict.values_eq, List.map_map]
  have he : (Prod.snd ∘ fun device : Device => (device.id, device)) = id := rfl
  rw [he, List.map_id]

theorem segment_eq (kind : SensorKind) (devices : List Device) :
    (devices.flatMap fun d => d.modules.map fun m =>
      ({ kind := kind, device_id := d.id, module_id := m.id } : Sensor))
      = (modulePairs devices).map (sensorOf kind) := by
  simp only [modulePairs, List.map_flatMap, List.map_map]
  rfl

theorem setup_eq (c : Client) (devices : List Device)
    (hnd : (devices.map Device.id).Nodup) :
    asyncSetupEntry (VaillantData.ofDevices c devices)
      = (modulePairs devices).map (sensorOf SensorKind.battery)
        ++ (modulePairs devices).map (sensorOf SensorKind.gasWater)
        ++ (modulePairs devices).map (sensorOf SensorKind.gasHeating) := by
  unfold asyncSetupEntry
  rw [ofDevices_values c devices hnd, segment_eq, segment_eq, segment_eq]

theorem sensor_map_nodup (kind : SensorKind) (devices : List Device)
    (h : (moduleIds devices).Nodup) :
    ((modulePairs devices).map (sensorOf kind)).Nodup := by
  have h2 : (((modulePairs devices).map (sensorOf kind)).map
      (fun s => s.module_id)).Nodup := by
    rw [List.map_map]
    have he : ((fun s => Sensor.module_id s) ∘ sensorOf kind)
        = fun p : String × Module => p.2.id := rfl
    rw [he, ← moduleIds_eq]
    exact h
  exact List.Nodup.of_map (fun s => s.module_id) h2

theorem sensor_not_mem_other (k₁ k₂ : SensorKind) (p : String × Module)
    (pairs : List (String × Module)) (hne : k₁ ≠ k₂) :
    sensorOf k₁ p ∉ pairs.map (sensorOf k₂) := by
  intro h
  rcases List.mem_map.mp h with ⟨q, _, hq⟩
  exact hne (congrArg Sensor.kind hq).symm

/-- C6: with distinct ids, setup creates exactly three sensors per module —
one battery, one gas water and one gas heating sensor, each constructed with
that module's device id and module id — and nothing else. -/
theorem c6_three_sensors_per_module (c : Client) (devices : List Device)
    (hdn : (devices.map Device.id).Nodup)
    (hmn : (moduleIds devices).Nodup) :
    (asyncSetupEntry (VaillantData.ofDevices c devices)).length
        = 3 * totalModules devices ∧
    (∀ did m, (did, m) ∈ modulePairs devices →
      List.count (sensorOf SensorKind.battery (did, m))
          (asyncSetupEntry (VaillantData.ofDevices c devices)) = 1 ∧
      List.count (sensorOf SensorKind.gasWater (did, m))
          (asyncSetupEntry (VaillantData.ofDevices c devices)) = 1 ∧
      List.count (sensorOf SensorKind.gasHeating (did, m))
          (asyncSetupEntry (VaillantData.ofDevices c devices)) = 1) ∧
    (∀ s, s ∈ asyncSetupEntry (VaillantData.ofDevices c devices) →
      ∃ did m, (did, m) ∈ modulePairs devices ∧
        (s = sensorOf SensorKind.battery (did, m) ∨
          s = sensorOf SensorKind.gasWater (did, m) ∨
          s = sensorOf SensorKind.gasHeating (did, m))) := by
  rw [setup_eq c devices hdn]
  refine ⟨?_, ?_, ?_⟩
  · simp only [List.length_append, List.length_map, modulePairs_length]
    omega
  · intro did m hmem
    have hcnt : ∀ k₁ k₂ : SensorKind, k₁ ≠ k₂ →
        List.count (sensorOf k₁ (did, m))
          ((modulePairs devices).map (sensorOf k₂)) = 0 := fun k₁ k₂ hne =>
      List.count_eq_zero.mpr
        (sensor_not_mem_other k₁ k₂ (did, m) (modulePairs devices) hne)
    have hone : ∀ k : SensorKind,
        List.count (sensorOf k (did, m))
          ((modulePairs devices).map (sensorOf k)) = 1 := fun k =>
      count_eq_one_of_nodup_mem _ _ (sensor_map_nodup k devices hmn)
        (List.mem_map_of_mem _ hmem)
    refine ⟨?_, ?_, ?_⟩
    · rw [List.count_append, List.count_append, hone SensorKind.battery,
        hcnt _ _ (by decide), hcnt _ _ (by decide)]
    · rw [List.count_append, List.count_append, hone SensorKind.gasWater,
        hcnt _ _ (by decide), hcnt _ _ (by decide)]
    · rw [List.count_append, List.count_append, hone SensorKind.gasHeating,
        hcnt _ _ (by decide), hcnt _ _ (by decide)]
  · intro s hs
    rcases List.mem_append.mp hs with hs' | hs'
    · rcases List.mem_append.mp hs' with hs'' | hs''
      · rcases List.mem_map.mp hs'' with ⟨⟨did, m⟩, hmem, hsm⟩
        exact ⟨did, m, hmem, Or.inl hsm.symm⟩
      · rcases List.mem_map.mp hs'' with ⟨⟨did, m⟩, hmem, hsm⟩
        exact ⟨did, m, hmem, Or.inr (Or.inl hsm.symm)⟩
    · rcases List.mem_map.mp hs' with ⟨⟨did, m⟩, hmem, hsm⟩
      exact ⟨did, m, hmem, Or.inr (Or.inr hsm.symm)⟩

/-- Witness for C6 on the concrete one-module tree: three sensors, one of
each kind. -/
theorem c6_witness :
    (asyncSetupEntry (VaillantData.ofDevices sampleClientOk sampleDevices)).length
        = 3 * totalModules sampleDevices ∧
    (∀ did m, (did, m) ∈ modulePairs sampleDevices →
      List.count (sensorOf SensorKind.battery (did, m))
          (asyncSetupEntry (VaillantData.ofDevices sampleClientOk sampleDevices))
        = 1 ∧
      List.count (sensorOf SensorKind.gasWater (did, m))
          (asyncSetupEntry (VaillantData.ofDevices sampleClientOk sampleDevices))
        = 1 ∧
      List.count (sensorOf SensorKind.gasHeating (did, m))
          (asyncSetupEntry (VaillantData.ofDevices sampleClientOk sampleDevices))
        = 1) ∧
    (∀ s, s ∈ asyncSetupEntry
        (VaillantData.ofDevices sampleClientOk sampleDevices) →
      ∃ did m, (did, m) ∈ modulePairs sampleDevices ∧
        (s = sensorOf SensorKind.battery (did, m) ∨
          s = sensorOf SensorKind.gasWater (did, m) ∨
          s = sensorOf SensorKind.gasHeating (did, m))) :=
  c6_three_sensors_per_module sampleClientOk sampleDevices (by decide)
    (by decide)

end VaillantVsmart
